import Mathlib

/-!
Verification of `web_scrapper` (src/src/web_scrapper/scraper.py) against its
natural-language specification.

The repository is a thin wrapper around the Playwright browser-automation
library.  The browser engine is an opaque external capability: every call into
it (`sync_playwright()` startup, `chromium.launch`, `new_page`, `goto`,
`wait_for_selector`, `title`, `inner_text`, `content`, `close`) may either
succeed or raise an exception.  We embed this capability as a `BrowserEnv`
record of call outcomes, and translate `scrape_page` /
`scrape_statistics_canada_daily` faithfully, statement by statement, into
total Lean functions parameterised by that environment.

Exceptions are modelled by `PlaywrightError`: Playwright's `TimeoutError`
(caught first by the source's `except PlaywrightTimeoutError` clause) and any
other `Exception` (caught by the source's broad `except Exception` clause),
each carrying its `str(e)` message.

Resource events (`launched`, `closed`, `stopped`) record the browser-process
lifecycle: `launched` when `chromium.launch` returns, `closed` when the
explicit `browser.close()` call succeeds, and `stopped` when the
`with sync_playwright() as p:` block exits (Python runs the context manager's
teardown on every exit from the block, normal or exceptional; that teardown
terminates the Playwright driver and every browser it launched).
-/

/-- A Playwright exception: either a `TimeoutError` or any other `Exception`,
carrying the `str(e)` message text. -/
inductive PlaywrightError where
  | timeout (msg : String)
  | other (msg : String)
deriving Repr, DecidableEq

/-- The result dictionary built by `scrape_page` (scraper.py lines 37-44):
`{"success": False, "url": url, "title": "", "content": "", "html": "", "error": ""}`. -/
structure ScrapeResult where
  success : Bool
  url : String
  title : String
  content : String
  html : String
  error : String
deriving Repr, DecidableEq

/-- Browser-process lifecycle events observable outside `scrape_page`. -/
inductive Event where
  | launched
  | closed
  | stopped
deriving Repr, DecidableEq

/-- The opaque browser capability: one outcome per external call made by
`scrape_page`.  Calls that receive arguments in the source are modelled as
functions of those arguments. -/
structure BrowserEnv where
  /-- Outcome of entering `with sync_playwright() as p:`. -/
  startRes : Except PlaywrightError Unit
  /-- Outcome of `p.chromium.launch(headless=headless)`. -/
  launchRes : Bool → Except PlaywrightError Unit
  /-- Outcome of `browser.new_page()`. -/
  newPageRes : Except PlaywrightError Unit
  /-- Outcome of `page.goto(url, timeout=timeout, wait_until="networkidle")`. -/
  gotoRes : String → Nat → String → Except PlaywrightError Unit
  /-- Outcome of `page.wait_for_selector(wait_for_selector, timeout=timeout)`. -/
  waitRes : String → Nat → Except PlaywrightError Unit
  /-- Outcome of `page.title()`. -/
  titleRes : Except PlaywrightError String
  /-- Outcome of `page.inner_text("body")`. -/
  innerTextRes : String → Except PlaywrightError String
  /-- Outcome of `page.content()`. -/
  contentRes : Except PlaywrightError String
  /-- Outcome of `browser.close()`. -/
  closeRes : Except PlaywrightError Unit

/-- Lines 56-57 of scraper.py: `if wait_for_selector: page.wait_for_selector(...)`.
Python truthiness of an optional string: the wait runs exactly when the value
is not `None` and not the empty string. -/
def selectorStep (env : BrowserEnv) (wait_for_selector : Option String)
    (timeout : Nat) : Except PlaywrightError Unit :=
  match wait_for_selector with
  | none => Except.ok ()
  | some s => if s ≠ "" then env.waitRes s timeout else Except.ok ()

/-- The `try:` block of `scrape_page` (scraper.py lines 46-66), threading the
mutable `result` dictionary.  Returns the exception raised by the block (if
any), the `result` dictionary as mutated so far (visible to the `except`
handlers), and the browser lifecycle events emitted.  The `with
sync_playwright()` teardown (`Event.stopped`) runs on every exit from the
block once the block was entered. -/
def try_body (env : BrowserEnv) (url : String) (headless : Bool) (timeout : Nat)
    (wait_for_selector : Option String) :
    Option PlaywrightError × ScrapeResult × List Event :=
  let result : ScrapeResult :=
    { success := false, url := url, title := "", content := "", html := "", error := "" }
  match env.startRes with
  | Except.error e => (some e, result, [])
  | Except.ok _ =>
  match env.launchRes headless with
  | Except.error e => (some e, result, [Event.stopped])
  | Except.ok _ =>
  match env.newPageRes with
  | Except.error e => (some e, result, [Event.launched, Event.stopped])
  | Except.ok _ =>
  match env.gotoRes url timeout "networkidle" with
  | Except.error e => (some e, result, [Event.launched, Event.stopped])
  | Except.ok _ =>
  match selectorStep env wait_for_selector timeout with
  | Except.error e => (some e, result, [Event.launched, Event.stopped])
  | Except.ok _ =>
  match env.titleRes with
  | Except.error e => (some e, result, [Event.launched, Event.stopped])
  | Except.ok t =>
  let result := { result with title := t }
  match env.innerTextRes "body" with
  | Except.error e => (some e, result, [Event.launched, Event.stopped])
  | Except.ok c =>
  let result := { result with content := c }
  match env.contentRes with
  | Except.error e => (some e, result, [Event.launched, Event.stopped])
  | Except.ok h =>
  let result := { result with html := h, success := true }
  match env.closeRes with
  | Except.error e => (some e, result, [Event.launched, Event.stopped])
  | Except.ok _ => (none, result, [Event.launched, Event.closed, Event.stopped])

/-- The two `except` clauses of `scrape_page` (scraper.py lines 68-71):
`except PlaywrightTimeoutError` sets `error = "Timeout error: " + str(e)`,
`except Exception` sets `error = "Error scraping page: " + str(e)`; both
leave every other field of the partially mutated `result` unchanged. -/
def run_handlers (r : ScrapeResult) : PlaywrightError → ScrapeResult
  | PlaywrightError.timeout m => { r with error := "Timeout error: " ++ m }
  | PlaywrightError.other m => { r with error := "Error scraping page: " ++ m }

/-- `scrape_page(url, headless=True, timeout=30000, wait_for_selector=None)`
(scraper.py lines 13-73): run the `try:` block against the browser
environment, apply the `except` handlers to any raised exception, and return
the `result` dictionary together with the browser lifecycle events. -/
def scrape_page (env : BrowserEnv) (url : String) (headless : Bool)
    (timeout : Nat) (wait_for_selector : Option String) :
    ScrapeResult × List Event :=
  match try_body env url headless timeout wait_for_selector with
  | (none, r, ev) => (r, ev)
  | (some e, r, ev) => (run_handlers r e, ev)

/-- The outcome of calling a Python function: either a normal return or an
uncaught exception propagating to the caller. -/
inductive Outcome where
  | ret (r : ScrapeResult)
  | raised (e : PlaywrightError)
deriving Repr, DecidableEq

/-- `scrape_page` viewed at the call boundary: an exception raised by the
`try:` block propagates to the caller unless one of the two `except` clauses
catches it.  `except PlaywrightTimeoutError` catches `TimeoutError`;
`except Exception` catches every other `Exception` (all browser-capability
failures are `Exception` subclasses). -/
def scrape_page_outcome (env : BrowserEnv) (url : String) (headless : Bool)
    (timeout : Nat) (wait_for_selector : Option String) :
    Outcome × List Event :=
  match try_body env url headless timeout wait_for_selector with
  | (none, r, ev) => (Outcome.ret r, ev)
  | (some (PlaywrightError.timeout m), r, ev) =>
      (Outcome.ret { r with error := "Timeout error: " ++ m }, ev)
  | (some (PlaywrightError.other m), r, ev) =>
      (Outcome.ret { r with error := "Error scraping page: " ++ m }, ev)

/-!
## SampleRunner: `scrape_statistics_canada_daily`

The filesystem is modelled as a map from paths (lists of components, as in
`pathlib.Path`) to file contents, plus the set of existing directories.  The
two filesystem operations the source performs —
`output_file.parent.mkdir(parents=True, exist_ok=True)` and
`open(output_file, "w") / json.dump` — are fallible external calls (modelled
by `FsEnv`) and the source wraps them in no `try:` block.  The `print` calls
are human-readable progress text, not part of the data contract, and are not
modelled.
-/

/-- A filesystem exception (`OSError`: permissions, disk full, ...). -/
inductive FsError where
  | err (msg : String)
deriving Repr, DecidableEq

/-- Filesystem state: file contents by path and the set of directories.
Paths are lists of components. -/
structure FS where
  files : List String → Option String
  dirs : List String → Bool

/-- Outcomes of the two filesystem calls made by
`scrape_statistics_canada_daily`. -/
structure FsEnv where
  /-- Outcome of `output_file.parent.mkdir(parents=True, exist_ok=True)`. -/
  mkdirRes : Except FsError Unit
  /-- Outcome of `open(output_file, "w", encoding="utf-8")` followed by
  `json.dump(save_data, f, indent=2, ensure_ascii=False)`. -/
  writeRes : Except FsError Unit

/-- `q` is an initial segment of path `p` (an ancestor directory, `p` itself
included). -/
def listLeq (q p : List String) : Bool := decide (q = p.take q.length)

/-- `mkdir(parents=True, exist_ok=True)` on directory `p`: afterwards `p` and
every ancestor of `p` exist; already-existing directories are untouched. -/
def mkdirParents (fs : FS) (p : List String) : FS :=
  { fs with dirs := fun d => fs.dirs d || listLeq d p }

/-- Writing string `data` to path `p` (mode `"w"`: create or truncate, so any
existing file at `p` is overwritten). -/
def writeFile (fs : FS) (p : List String) (data : String) : FS :=
  { fs with files := fun q => if q = p then some data else fs.files q }

/-- One hexadecimal digit, lowercase, as produced by Python's `json` module
in `\uXXXX` escapes. -/
def hexDigit (n : Nat) : Char :=
  if n < 10 then Char.ofNat (48 + n) else Char.ofNat (97 + (n - 10))

/-- Four lowercase hexadecimal digits. -/
def hex4 (n : Nat) : String :=
  String.mk [hexDigit (n / 4096 % 16), hexDigit (n / 256 % 16),
             hexDigit (n / 16 % 16), hexDigit (n % 16)]

/-- Python `json` string escaping with `ensure_ascii=False`: only the
backslash, the double quote and control characters below U+0020 are escaped;
every other character — all non-ASCII characters included — is emitted
verbatim. -/
def jsonEscapeChar (ch : Char) : String :=
  if ch = '\\' then "\\\\"
  else if ch = '"' then "\\\""
  else if ch = '\n' then "\\n"
  else if ch = '\r' then "\\r"
  else if ch = '\t' then "\\t"
  else if ch.toNat = 8 then "\\b"
  else if ch.toNat = 12 then "\\f"
  else if ch.toNat < 32 then "\\u" ++ hex4 ch.toNat
  else String.singleton ch

/-- A Python JSON string literal (`ensure_ascii=False`). -/
def pyJsonStr (s : String) : String :=
  "\"" ++ String.join (s.data.map jsonEscapeChar) ++ "\""

/-- `json.dumps` of a flat string-valued object with `indent=2` and
`ensure_ascii=False`: two-space indentation, item separator `,\n`,
key separator `: `, keys in insertion order. -/
def pyJsonDumpObj (kvs : List (String × String)) : String :=
  match kvs with
  | [] => "{}"
  | _ =>
    "\x7b\n" ++
    String.intercalate ",\n"
      (kvs.map (fun kv => "  " ++ pyJsonStr kv.1 ++ ": " ++ pyJsonStr kv.2)) ++
    "\n\x7d"

/-- The fixed URL of the sample runner (scraper.py line 86). -/
def STATCAN_URL : String :=
  "https://www150.statcan.gc.ca/n1/daily-quotidien/260216/dq260216a-eng.htm"

/-- The `save_data` dictionary (scraper.py lines 104-108): only `url`,
`title` and `content` — the full HTML is left out to keep the file smaller. -/
def save_data (result : ScrapeResult) : List (String × String) :=
  [("url", result.url), ("title", result.title), ("content", result.content)]

/-- `scrape_statistics_canada_daily(output_file=None)` (scraper.py lines
76-117): scrape the fixed URL with `wait_for_selector="main"` and default
`headless`/`timeout`; if the scrape succeeded and an output path was given,
create the parent directories and write `save_data` as JSON; return the
scrape result.  The file-write step has no exception handling of its own, so
a filesystem failure escapes as `Except.error`. -/
def scrape_statistics_canada_daily (benv : BrowserEnv) (fenv : FsEnv)
    (fs : FS) (output_file : Option (List String)) :
    Except FsError (ScrapeResult × FS) :=
  let result := (scrape_page benv STATCAN_URL true 30000 (some "main")).1
  if result.success then
    match output_file with
    | none => Except.ok (result, fs)
    | some p =>
      match fenv.mkdirRes with
      | Except.error e => Except.error e
      | Except.ok _ =>
        let fs := mkdirParents fs p.dropLast
        match fenv.writeRes with
        | Except.error e => Except.error e
        | Except.ok _ =>
          Except.ok (result, writeFile fs p (pyJsonDumpObj (save_data result)))
  else
    Except.ok (result, fs)

/-!
## Concrete environments

Concrete instances of the browser and filesystem capabilities, used to
witness the theorems below on explicit inputs and to exhibit
counterexamples.  `envAllOk` is a run in which every external call succeeds;
the others make exactly one call fail.
-/

/-- A run in which every browser call succeeds. -/
def envAllOk : BrowserEnv where
  startRes := Except.ok ()
  launchRes := fun _ => Except.ok ()
  newPageRes := Except.ok ()
  gotoRes := fun _ _ _ => Except.ok ()
  waitRes := fun _ _ => Except.ok ()
  titleRes := Except.ok "Example Domain"
  innerTextRes := fun _ => Except.ok "Example body text"
  contentRes := Except.ok "<html><body>Example</body></html>"
  closeRes := Except.ok ()

/-- A run in which navigation raises Playwright's `TimeoutError`. -/
def envGotoTimeout : BrowserEnv :=
  { envAllOk with
    gotoRes := fun _ _ _ =>
      Except.error (PlaywrightError.timeout "Timeout 30000ms exceeded.") }

/-- A run in which navigation raises a non-timeout exception
(unreachable host). -/
def envGotoFail : BrowserEnv :=
  { envAllOk with
    gotoRes := fun _ _ _ =>
      Except.error (PlaywrightError.other "net::ERR_NAME_NOT_RESOLVED") }

/-- A run in which the selector wait raises Playwright's `TimeoutError`. -/
def envWaitTimeout : BrowserEnv :=
  { envAllOk with
    waitRes := fun _ _ =>
      Except.error (PlaywrightError.timeout "Timeout 30000ms exceeded waiting for selector") }

/-- A run in which `page.title()` succeeds with a non-empty title and the
subsequent `page.inner_text("body")` raises. -/
def envTextFail : BrowserEnv :=
  { envAllOk with
    titleRes := Except.ok "Example Title"
    innerTextRes := fun _ => Except.error (PlaywrightError.other "Page crashed") }

/-- A run in which every call up to and including extraction succeeds and the
final `browser.close()` raises. -/
def envCloseFail : BrowserEnv :=
  { envAllOk with
    closeRes := Except.error (PlaywrightError.other "Connection closed") }

/-- As `envCloseFail`, with the message Playwright uses for an
already-closed browser. -/
def envCloseFailGeneric : BrowserEnv :=
  { envAllOk with
    closeRes := Except.error (PlaywrightError.other "Browser has been closed") }

/-- As `envCloseFail`, with a target-closed message. -/
def envCloseFailRet : BrowserEnv :=
  { envAllOk with
    closeRes :=
      Except.error (PlaywrightError.other "Target page, context or browser has been closed") }

/-- An empty filesystem. -/
def fs0 : FS where
  files := fun _ => none
  dirs := fun _ => false

/-- Filesystem calls that succeed. -/
def fsEnvOk : FsEnv where
  mkdirRes := Except.ok ()
  writeRes := Except.ok ()

/-- Directory creation fails. -/
def fsEnvMkdirFail : FsEnv where
  mkdirRes := Except.error (FsError.err "Permission denied")
  writeRes := Except.ok ()

/-- Directory creation succeeds, the file write fails. -/
def fsEnvWriteFail : FsEnv where
  mkdirRes := Except.ok ()
  writeRes := Except.error (FsError.err "No space left on device")

/-!
## Helper lemmas
-/

theorem string_append_ne_empty (p m : String) (hp : p.length ≠ 0) : p ++ m ≠ "" := by
  intro h
  have h2 := congrArg String.length h
  simp [String.length_append, String.length_empty] at h2
  omega

theorem timeout_msg_ne_generic (m rest : String) :
    "Timeout error: " ++ m ≠ "Error scraping page: " ++ rest := by
  intro h
  have h2 := congrArg (fun s => s.data.head?) h
  simp [String.data_append] at h2

theorem run_handlers_success (r : ScrapeResult) (e : PlaywrightError) :
    (run_handlers r e).success = r.success := by
  cases e <;> rfl

theorem run_handlers_url (r : ScrapeResult) (e : PlaywrightError) :
    (run_handlers r e).url = r.url := by
  cases e <;> rfl

theorem run_handlers_title (r : ScrapeResult) (e : PlaywrightError) :
    (run_handlers r e).title = r.title := by
  cases e <;> rfl

theorem run_handlers_content (r : ScrapeResult) (e : PlaywrightError) :
    (run_handlers r e).content = r.content := by
  cases e <;> rfl

theorem run_handlers_html (r : ScrapeResult) (e : PlaywrightError) :
    (run_handlers r e).html = r.html := by
  cases e <;> rfl

theorem run_handlers_error_ne_empty (r : ScrapeResult) (e : PlaywrightError) :
    (run_handlers r e).error ≠ "" := by
  cases e with
  | timeout m => exact string_append_ne_empty "Timeout error: " m (by decide)
  | other m => exact string_append_ne_empty "Error scraping page: " m (by decide)

theorem scrape_page_eq_of_some (env : BrowserEnv) (url : String) (hdl : Bool)
    (t : Nat) (ws : Option String) (e : PlaywrightError) (r0 : ScrapeResult)
    (ev : List Event) (htb : try_body env url hdl t ws = (some e, r0, ev)) :
    scrape_page env url hdl t ws = (run_handlers r0 e, ev) := by
  simp [scrape_page, htb]

theorem scrape_page_eq_of_none (env : BrowserEnv) (url : String) (hdl : Bool)
    (t : Nat) (ws : Option String) (r0 : ScrapeResult) (ev : List Event)
    (htb : try_body env url hdl t ws = (none, r0, ev)) :
    scrape_page env url hdl t ws = (r0, ev) := by
  simp [scrape_page, htb]

/-- Exhaustive case analysis of one run of the `try:` block: either some call
is the first to raise (nine possible sites, each recorded with the state of
the `result` dictionary and the events at that point), or every call
succeeds. -/
theorem try_body_spec (env : BrowserEnv) (url : String) (hdl : Bool) (t : Nat)
    (ws : Option String) :
    (∃ e, env.startRes = Except.error e ∧
      try_body env url hdl t ws = (some e, ⟨false, url, "", "", "", ""⟩, [])) ∨
    (∃ e, env.launchRes hdl = Except.error e ∧
      try_body env url hdl t ws = (some e, ⟨false, url, "", "", "", ""⟩, [Event.stopped])) ∨
    (∃ e, env.newPageRes = Except.error e ∧
      try_body env url hdl t ws =
        (some e, ⟨false, url, "", "", "", ""⟩, [Event.launched, Event.stopped])) ∨
    (∃ e, env.gotoRes url t "networkidle" = Except.error e ∧
      try_body env url hdl t ws =
        (some e, ⟨false, url, "", "", "", ""⟩, [Event.launched, Event.stopped])) ∨
    (∃ e, selectorStep env ws t = Except.error e ∧
      try_body env url hdl t ws =
        (some e, ⟨false, url, "", "", "", ""⟩, [Event.launched, Event.stopped])) ∨
    (∃ e, env.titleRes = Except.error e ∧
      try_body env url hdl t ws =
        (some e, ⟨false, url, "", "", "", ""⟩, [Event.launched, Event.stopped])) ∨
    (∃ e tl, env.titleRes = Except.ok tl ∧ env.innerTextRes "body" = Except.error e ∧
      try_body env url hdl t ws =
        (some e, ⟨false, url, tl, "", "", ""⟩, [Event.launched, Event.stopped])) ∨
    (∃ e tl c, env.titleRes = Except.ok tl ∧ env.innerTextRes "body" = Except.ok c ∧
      env.contentRes = Except.error e ∧
      try_body env url hdl t ws =
        (some e, ⟨false, url, tl, c, "", ""⟩, [Event.launched, Event.stopped])) ∨
    (∃ e tl c hh, env.titleRes = Except.ok tl ∧ env.innerTextRes "body" = Except.ok c ∧
      env.contentRes = Except.ok hh ∧ env.closeRes = Except.error e ∧
      try_body env url hdl t ws =
        (some e, ⟨true, url, tl, c, hh, ""⟩, [Event.launched, Event.stopped])) ∨
    (∃ tl c hh, env.titleRes = Except.ok tl ∧ env.innerTextRes "body" = Except.ok c ∧
      env.contentRes = Except.ok hh ∧ env.closeRes = Except.ok () ∧
      try_body env url hdl t ws =
        (none, ⟨true, url, tl, c, hh, ""⟩, [Event.launched, Event.closed, Event.stopped])) := by
  rcases h1 : env.startRes with e | u1
  · exact Or.inl ⟨e, rfl, by simp [try_body, h1]⟩
  rcases h2 : env.launchRes hdl with e | u2
  · exact Or.inr (Or.inl ⟨e, rfl, by simp [try_body, h1, h2]⟩)
  rcases h3 : env.newPageRes with e | u3
  · exact Or.inr (Or.inr (Or.inl ⟨e, rfl, by simp [try_body, h1, h2, h3]⟩))
  rcases h4 : env.gotoRes url t "networkidle" with e | u4
  · exact Or.inr (Or.inr (Or.inr (Or.inl ⟨e, rfl, by simp [try_body, h1, h2, h3, h4]⟩)))
  rcases h5 : selectorStep env ws t with e | u5
  · exact Or.inr (Or.inr (Or.inr (Or.inr (Or.inl
      ⟨e, rfl, by simp [try_body, h1, h2, h3, h4, h5]⟩))))
  rcases h6 : env.titleRes with e | tl
  · exact Or.inr (Or.inr (Or.inr (Or.inr (Or.inr (Or.inl
      ⟨e, rfl, by simp [try_body, h1, h2, h3, h4, h5, h6]⟩)))))
  rcases h7 : env.innerTextRes "body" with e | c
  · exact Or.inr (Or.inr (Or.inr (Or.inr (Or.inr (Or.inr (Or.inl
      ⟨e, tl, rfl, rfl, by simp [try_body, h1, h2, h3, h4, h5, h6, h7]⟩))))))
  rcases h8 : env.contentRes with e | hh
  · exact Or.inr (Or.inr (Or.inr (Or.inr (Or.inr (Or.inr (Or.inr (Or.inl
      ⟨e, tl, c, rfl, rfl, rfl, by simp [try_body, h1, h2, h3, h4, h5, h6, h7, h8]⟩)))))))
  rcases h9 : env.closeRes with e | u9
  · exact Or.inr (Or.inr (Or.inr (Or.inr (Or.inr (Or.inr (Or.inr (Or.inr (Or.inl
      ⟨e, tl, c, hh, rfl, rfl, rfl, rfl,
        by simp [try_body, h1, h2, h3, h4, h5, h6, h7, h8, h9]⟩))))))))
  · exact Or.inr (Or.inr (Or.inr (Or.inr (Or.inr (Or.inr (Or.inr (Or.inr (Or.inr
      ⟨tl, c, hh, rfl, rfl, rfl, rfl,
        by simp [try_body, h1, h2, h3, h4, h5, h6, h7, h8, h9]⟩))))))))

theorem selectorStep_empty_eq_none (env : BrowserEnv) (t : Nat) :
    selectorStep env (some "") t = selectorStep env none t := by
  simp [selectorStep]

theorem try_body_empty_selector (env : BrowserEnv) (url : String) (hdl : Bool)
    (t : Nat) :
    try_body env url hdl t (some "") = try_body env url hdl t none := by
  unfold try_body
  rw [selectorStep_empty_eq_none]

/-- When the `try:` block raises and the `result` dictionary already has
`success=True`, the raising call can only have been `browser.close()` —
every earlier raise happens before `success` is set. -/
theorem try_body_success_close (env : BrowserEnv) (url : String) (hdl : Bool)
    (t : Nat) (ws : Option String) (e : PlaywrightError) (r0 : ScrapeResult)
    (ev : List Event) (htb : try_body env url hdl t ws = (some e, r0, ev))
    (hs : r0.success = true) : env.closeRes = Except.error e := by
  rcases try_body_spec env url hdl t ws with
    ⟨e', he, htb'⟩ | ⟨e', he, htb'⟩ | ⟨e', he, htb'⟩ | ⟨e', he, htb'⟩ | ⟨e', he, htb'⟩ |
    ⟨e', he, htb'⟩ | ⟨e', tl, h6, he, htb'⟩ | ⟨e', tl, c, h6, h7, he, htb'⟩ |
    ⟨e', tl, c, hh, h6, h7, h8, he, htb'⟩ | ⟨tl, c, hh, h6, h7, h8, h9, htb'⟩ <;>
      rw [htb] at htb'
  · simp only [Prod.mk.injEq, Option.some.injEq] at htb'
    rw [htb'.2.1] at hs; simp at hs
  · simp only [Prod.mk.injEq, Option.some.injEq] at htb'
    rw [htb'.2.1] at hs; simp at hs
  · simp only [Prod.mk.injEq, Option.some.injEq] at htb'
    rw [htb'.2.1] at hs; simp at hs
  · simp only [Prod.mk.injEq, Option.some.injEq] at htb'
    rw [htb'.2.1] at hs; simp at hs
  · simp only [Prod.mk.injEq, Option.some.injEq] at htb'
    rw [htb'.2.1] at hs; simp at hs
  · simp only [Prod.mk.injEq, Option.some.injEq] at htb'
    rw [htb'.2.1] at hs; simp at hs
  · simp only [Prod.mk.injEq, Option.some.injEq] at htb'
    rw [htb'.2.1] at hs; simp at hs
  · simp only [Prod.mk.injEq, Option.some.injEq] at htb'
    rw [htb'.2.1] at hs; simp at hs
  · simp only [Prod.mk.injEq, Option.some.injEq] at htb'
    rw [htb'.1]; exact he
  · simp at htb'

theorem jsonEscapeChar_nonascii (ch : Char) (h : 127 < ch.toNat) :
    jsonEscapeChar ch = String.singleton ch := by
  unfold jsonEscapeChar
  split_ifs with h1 h2 h3 h4 h5 h6 h7 h8
  · rw [h1] at h; exact absurd h (by decide)
  · rw [h2] at h; exact absurd h (by decide)
  · rw [h3] at h; exact absurd h (by decide)
  · rw [h4] at h; exact absurd h (by decide)
  · rw [h5] at h; exact absurd h (by decide)
  · omega
  · omega
  · omega
  · rfl

/-!
## Claims
-/

/-- C1 counterexample: the mutual-exclusion invariant fails on the run in
which every call up to extraction succeeds and the final `browser.close()`
raises.  `result["success"] = True` is executed (line 63) before
`browser.close()` (line 66); the exception handler then fills `error`
without resetting `success`, so the returned record has `success=true` AND a
non-empty `error` — "never both" is violated. -/
theorem C1_claim_false_at_close_failure :
    (scrape_page envCloseFail "https://example.com" true 30000 none).1.success = true ∧
    (scrape_page envCloseFail "https://example.com" true 30000 none).1.error ≠ "" := by
  decide

/-- C1 (amended): for every input and every behaviour of the browser
capability, the record returned by `scrape_page` satisfies: either
`success=true` with `error` empty, or `success=false` with `error` non-empty
(and `html` still at its default, since `html` is only assigned immediately
before `success`), or — only when `browser.close()` itself raised after a
fully successful extraction — `success=true` together with a non-empty
`error`.  Never `success=false` with an empty `error`. -/
theorem C1_success_error_exclusion_amended (env : BrowserEnv) (url : String)
    (hdl : Bool) (t : Nat) (ws : Option String) :
    ((scrape_page env url hdl t ws).1.success = true ∧
      (scrape_page env url hdl t ws).1.error = "") ∨
    ((scrape_page env url hdl t ws).1.success = false ∧
      (scrape_page env url hdl t ws).1.error ≠ "" ∧
      (scrape_page env url hdl t ws).1.html = "") ∨
    ((scrape_page env url hdl t ws).1.success = true ∧
      (scrape_page env url hdl t ws).1.error ≠ "" ∧
      ∃ e, env.closeRes = Except.error e) := by
  rcases try_body_spec env url hdl t ws with
    ⟨e, he, htb⟩ | ⟨e, he, htb⟩ | ⟨e, he, htb⟩ | ⟨e, he, htb⟩ | ⟨e, he, htb⟩ |
    ⟨e, he, htb⟩ | ⟨e, tl, h6, he, htb⟩ | ⟨e, tl, c, h6, h7, he, htb⟩ |
    ⟨e, tl, c, hh, h6, h7, h8, he, htb⟩ | ⟨tl, c, hh, h6, h7, h8, h9, htb⟩
  · rw [scrape_page_eq_of_some _ _ _ _ _ _ _ _ htb]
    exact Or.inr (Or.inl ⟨run_handlers_success _ _, run_handlers_error_ne_empty _ _,
      run_handlers_html _ _⟩)
  · rw [scrape_page_eq_of_some _ _ _ _ _ _ _ _ htb]
    exact Or.inr (Or.inl ⟨run_handlers_success _ _, run_handlers_error_ne_empty _ _,
      run_handlers_html _ _⟩)
  · rw [scrape_page_eq_of_some _ _ _ _ _ _ _ _ htb]
    exact Or.inr (Or.inl ⟨run_handlers_success _ _, run_handlers_error_ne_empty _ _,
      run_handlers_html _ _⟩)
  · rw [scrape_page_eq_of_some _ _ _ _ _ _ _ _ htb]
    exact Or.inr (Or.inl ⟨run_handlers_success _ _, run_handlers_error_ne_empty _ _,
      run_handlers_html _ _⟩)
  · rw [scrape_page_eq_of_some _ _ _ _ _ _ _ _ htb]
    exact Or.inr (Or.inl ⟨run_handlers_success _ _, run_handlers_error_ne_empty _ _,
      run_handlers_html _ _⟩)
  · rw [scrape_page_eq_of_some _ _ _ _ _ _ _ _ htb]
    exact Or.inr (Or.inl ⟨run_handlers_success _ _, run_handlers_error_ne_empty _ _,
      run_handlers_html _ _⟩)
  · rw [scrape_page_eq_of_some _ _ _ _ _ _ _ _ htb]
    exact Or.inr (Or.inl ⟨run_handlers_success _ _, run_handlers_error_ne_empty _ _,
      run_handlers_html _ _⟩)
  · rw [scrape_page_eq_of_some _ _ _ _ _ _ _ _ htb]
    exact Or.inr (Or.inl ⟨run_handlers_success _ _, run_handlers_error_ne_empty _ _,
      run_handlers_html _ _⟩)
  · rw [scrape_page_eq_of_some _ _ _ _ _ _ _ _ htb]
    exact Or.inr (Or.inr ⟨run_handlers_success _ _, run_handlers_error_ne_empty _ _, e, he⟩)
  · rw [scrape_page_eq_of_none _ _ _ _ _ _ _ htb]
    exact Or.inl ⟨rfl, rfl⟩

/-- C2 counterexample: partial results DO survive in the returned record.
On the run where `page.title()` returns "Example Title" and the subsequent
`page.inner_text("body")` raises, the handler returns the partially mutated
dictionary: `success=false` but `title` is NOT its default empty value, so a
failure does not yield an all-empty-except-error record. -/
theorem C2_claim_false_partial_title :
    (scrape_page envTextFail "https://example.com" true 30000 none).1.success = false ∧
    (scrape_page envTextFail "https://example.com" true 30000 none).1.title = "Example Title" ∧
    (scrape_page envTextFail "https://example.com" true 30000 none).1.title ≠ "" := by
  decide

/-- C2 (amended): whenever `scrape_page` reports failure (`success=false`),
the record has a non-empty `error`, the `url` argument preserved, and `html`
still default-empty; but `title` and `content` are each either their default
empty value or exactly the value extracted by the corresponding page call
before the failure — fields extracted before the failing step survive. -/
theorem C2_failure_fields_amended (env : BrowserEnv) (url : String) (hdl : Bool)
    (t : Nat) (ws : Option String)
    (hf : (scrape_page env url hdl t ws).1.success = false) :
    (scrape_page env url hdl t ws).1.error ≠ "" ∧
    (scrape_page env url hdl t ws).1.url = url ∧
    (scrape_page env url hdl t ws).1.html = "" ∧
    ((scrape_page env url hdl t ws).1.title = "" ∨
      env.titleRes = Except.ok (scrape_page env url hdl t ws).1.title) ∧
    ((scrape_page env url hdl t ws).1.content = "" ∨
      env.innerTextRes "body" = Except.ok (scrape_page env url hdl t ws).1.content) := by
  rcases try_body_spec env url hdl t ws with
    ⟨e, he, htb⟩ | ⟨e, he, htb⟩ | ⟨e, he, htb⟩ | ⟨e, he, htb⟩ | ⟨e, he, htb⟩ |
    ⟨e, he, htb⟩ | ⟨e, tl, h6, he, htb⟩ | ⟨e, tl, c, h6, h7, he, htb⟩ |
    ⟨e, tl, c, hh, h6, h7, h8, he, htb⟩ | ⟨tl, c, hh, h6, h7, h8, h9, htb⟩
  · rw [scrape_page_eq_of_some _ _ _ _ _ _ _ _ htb]
    exact ⟨run_handlers_error_ne_empty _ _, run_handlers_url _ _, run_handlers_html _ _,
      Or.inl (run_handlers_title _ _), Or.inl (run_handlers_content _ _)⟩
  · rw [scrape_page_eq_of_some _ _ _ _ _ _ _ _ htb]
    exact ⟨run_handlers_error_ne_empty _ _, run_handlers_url _ _, run_handlers_html _ _,
      Or.inl (run_handlers_title _ _), Or.inl (run_handlers_content _ _)⟩
  · rw [scrape_page_eq_of_some _ _ _ _ _ _ _ _ htb]
    exact ⟨run_handlers_error_ne_empty _ _, run_handlers_url _ _, run_handlers_html _ _,
      Or.inl (run_handlers_title _ _), Or.inl (run_handlers_content _ _)⟩
  · rw [scrape_page_eq_of_some _ _ _ _ _ _ _ _ htb]
    exact ⟨run_handlers_error_ne_empty _ _, run_handlers_url _ _, run_handlers_html _ _,
      Or.inl (run_handlers_title _ _), Or.inl (run_handlers_content _ _)⟩
  · rw [scrape_page_eq_of_some _ _ _ _ _ _ _ _ htb]
    exact ⟨run_handlers_error_ne_empty _ _, run_handlers_url _ _, run_handlers_html _ _,
      Or.inl (run_handlers_title _ _), Or.inl (run_handlers_content _ _)⟩
  · rw [scrape_page_eq_of_some _ _ _ _ _ _ _ _ htb]
    exact ⟨run_handlers_error_ne_empty _ _, run_handlers_url _ _, run_handlers_html _ _,
      Or.inl (run_handlers_title _ _), Or.inl (run_handlers_content _ _)⟩
  · rw [scrape_page_eq_of_some _ _ _ _ _ _ _ _ htb]
    refine ⟨run_handlers_error_ne_empty _ _, run_handlers_url _ _, run_handlers_html _ _,
      Or.inr ?_, Or.inl (run_handlers_content _ _)⟩
    rw [run_handlers_title]
    exact h6
  · rw [scrape_page_eq_of_some _ _ _ _ _ _ _ _ htb]
    refine ⟨run_handlers_error_ne_empty _ _, run_handlers_url _ _, run_handlers_html _ _,
      Or.inr ?_, Or.inr ?_⟩
    · rw [run_handlers_title]; exact h6
    · rw [run_handlers_content]; exact h7
  · exfalso
    rw [scrape_page_eq_of_some _ _ _ _ _ _ _ _ htb] at hf
    rw [run_handlers_success] at hf
    simp at hf
  · exfalso
    rw [scrape_page_eq_of_none _ _ _ _ _ _ _ htb] at hf
    simp at hf

/-- C2 witness: with navigation failing, `scrape_page` reports failure and
the amended field description holds. -/
theorem C2_failure_fields_amended_witness :
    (scrape_page envGotoFail "https://example.com" true 30000 none).1.success = false ∧
    ((scrape_page envGotoFail "https://example.com" true 30000 none).1.error ≠ "" ∧
     (scrape_page envGotoFail "https://example.com" true 30000 none).1.url = "https://example.com" ∧
     (scrape_page envGotoFail "https://example.com" true 30000 none).1.html = "" ∧
     ((scrape_page envGotoFail "https://example.com" true 30000 none).1.title = "" ∨
       envGotoFail.titleRes =
         Except.ok (scrape_page envGotoFail "https://example.com" true 30000 none).1.title) ∧
     ((scrape_page envGotoFail "https://example.com" true 30000 none).1.content = "" ∨
       envGotoFail.innerTextRes "body" =
         Except.ok (scrape_page envGotoFail "https://example.com" true 30000 none).1.content)) :=
  ⟨by decide,
   C2_failure_fields_amended envGotoFail "https://example.com" true 30000 none (by decide)⟩

/-- C3: in every execution in which the `with sync_playwright()` block is
entered and the browser launch succeeds, a release of the browser happens
before `scrape_page` returns: the `Event.stopped` teardown (the context
manager's exit, which terminates the Playwright driver and every browser it
launched) is among the emitted events on the success path and on every
failure path. -/
theorem C3_browser_released (env : BrowserEnv) (url : String) (hdl : Bool)
    (t : Nat) (ws : Option String) (h1 : env.startRes = Except.ok ())
    (h2 : env.launchRes hdl = Except.ok ()) :
    Event.stopped ∈ (scrape_page env url hdl t ws).2 := by
  rcases try_body_spec env url hdl t ws with
    ⟨e, he, htb⟩ | ⟨e, he, htb⟩ | ⟨e, he, htb⟩ | ⟨e, he, htb⟩ | ⟨e, he, htb⟩ |
    ⟨e, he, htb⟩ | ⟨e, tl, h6, he, htb⟩ | ⟨e, tl, c, h6, h7, he, htb⟩ |
    ⟨e, tl, c, hh, h6, h7, h8, he, htb⟩ | ⟨tl, c, hh, h6, h7, h8, h9, htb⟩
  · rw [h1] at he; exact absurd he (by simp)
  · rw [h2] at he; exact absurd he (by simp)
  · rw [scrape_page_eq_of_some _ _ _ _ _ _ _ _ htb]; simp
  · rw [scrape_page_eq_of_some _ _ _ _ _ _ _ _ htb]; simp
  · rw [scrape_page_eq_of_some _ _ _ _ _ _ _ _ htb]; simp
  · rw [scrape_page_eq_of_some _ _ _ _ _ _ _ _ htb]; simp
  · rw [scrape_page_eq_of_some _ _ _ _ _ _ _ _ htb]; simp
  · rw [scrape_page_eq_of_some _ _ _ _ _ _ _ _ htb]; simp
  · rw [scrape_page_eq_of_some _ _ _ _ _ _ _ _ htb]; simp
  · rw [scrape_page_eq_of_none _ _ _ _ _ _ _ htb]; simp

/-- C3 witness: on the all-successful run the launch succeeds and the
teardown event is among the events of the call. -/
theorem C3_browser_released_witness :
    envAllOk.startRes = Except.ok () ∧ envAllOk.launchRes true = Except.ok () ∧
    Event.stopped ∈ (scrape_page envAllOk "https://example.com" true 30000 none).2 :=
  ⟨rfl, rfl, C3_browser_released envAllOk "https://example.com" true 30000 none rfl rfl⟩

/-- C4 counterexample: the claim requires `success=false` whenever the
failure is a non-timeout exception, but when `browser.close()` raises a
non-timeout exception after extraction succeeded, the error receives the
generic prefix while `success` stays `true`. -/
theorem C4_claim_false_at_close_failure :
    (scrape_page envCloseFailGeneric "https://example.com" true 30000 none).1.error =
      "Error scraping page: Browser has been closed" ∧
    (scrape_page envCloseFailGeneric "https://example.com" true 30000 none).1.success = true := by
  decide

/-- C4 (amended): whenever the `try:` block of `scrape_page` raises, the
returned record's `error` is exactly `"Timeout error: "` followed by the
exception details when the exception is a Playwright `TimeoutError` (and is
then never of the generic `"Error scraping page: "` shape), and exactly
`"Error scraping page: "` followed by the details for any other exception;
`success` is `false` in every failure case except when the raising call was
`browser.close()` after success had already been recorded. -/
theorem C4_error_prefixes_amended (env : BrowserEnv) (url : String) (hdl : Bool)
    (t : Nat) (ws : Option String) (e : PlaywrightError) (r0 : ScrapeResult)
    (ev : List Event) (htb : try_body env url hdl t ws = (some e, r0, ev)) :
    (∀ m, e = PlaywrightError.timeout m →
      (scrape_page env url hdl t ws).1.error = "Timeout error: " ++ m ∧
      ∀ rest, (scrape_page env url hdl t ws).1.error ≠ "Error scraping page: " ++ rest) ∧
    (∀ m, e = PlaywrightError.other m →
      (scrape_page env url hdl t ws).1.error = "Error scraping page: " ++ m) ∧
    ((scrape_page env url hdl t ws).1.success = true → env.closeRes = Except.error e) := by
  rw [scrape_page_eq_of_some _ _ _ _ _ _ _ _ htb]
  refine ⟨?_, ?_, ?_⟩
  · rintro m rfl
    refine ⟨rfl, fun rest h => ?_⟩
    exact timeout_msg_ne_generic m rest h
  · rintro m rfl
    rfl
  · intro hsucc
    rw [run_handlers_success] at hsucc
    exact try_body_success_close env url hdl t ws e r0 ev htb hsucc

/-- C4 witness: a navigation timeout yields the timeout prefix and never the
generic one. -/
theorem C4_error_prefixes_amended_witness :
    try_body envGotoTimeout "https://example.com" true 30000 none =
      (some (PlaywrightError.timeout "Timeout 30000ms exceeded."),
       ⟨false, "https://example.com", "", "", "", ""⟩,
       [Event.launched, Event.stopped]) ∧
    (scrape_page envGotoTimeout "https://example.com" true 30000 none).1.error =
      "Timeout error: " ++ "Timeout 30000ms exceeded." ∧
    (∀ rest, (scrape_page envGotoTimeout "https://example.com" true 30000 none).1.error ≠
      "Error scraping page: " ++ rest) ∧
    (scrape_page envGotoTimeout "https://example.com" true 30000 none).1.success = false := by
  have h := C4_error_prefixes_amended envGotoTimeout "https://example.com" true 30000 none
    (PlaywrightError.timeout "Timeout 30000ms exceeded.")
    ⟨false, "https://example.com", "", "", "", ""⟩ [Event.launched, Event.stopped] (by decide)
  exact ⟨by decide, (h.1 _ rfl).1, (h.1 _ rfl).2, by decide⟩

/-- C5 counterexample: the claim's "well-formed ScrapeResult (with
success=false in the failure case)" fails: when the browser capability fails
at `browser.close()`, the exception is indeed recovered locally (no raise),
but the returned record has `success=true`, not `success=false`. -/
theorem C5_claim_false_at_close_failure :
    envCloseFailRet.closeRes =
      Except.error (PlaywrightError.other "Target page, context or browser has been closed") ∧
    (scrape_page_outcome envCloseFailRet "https://example.com" true 30000 none).1 =
      Outcome.ret (scrape_page envCloseFailRet "https://example.com" true 30000 none).1 ∧
    (scrape_page envCloseFailRet "https://example.com" true 30000 none).1.success = true :=
  ⟨rfl, by decide, by decide⟩

/-- C5 (amended): `scrape_page` never raises or propagates an exception to
its caller: for every behaviour of the browser capability the outcome at the
call boundary is a normal return of the record built by the function; when
the `try:` block raised, the returned record carries a non-empty `error`,
and `success=false` except when the raising call was `browser.close()` after
success had already been recorded. -/
theorem C5_no_raise_amended (env : BrowserEnv) (url : String) (hdl : Bool)
    (t : Nat) (ws : Option String) :
    (scrape_page_outcome env url hdl t ws).1 =
      Outcome.ret (scrape_page env url hdl t ws).1 ∧
    ∀ e r0 ev, try_body env url hdl t ws = (some e, r0, ev) →
      ((scrape_page env url hdl t ws).1.error ≠ "" ∧
       ((scrape_page env url hdl t ws).1.success = true →
         env.closeRes = Except.error e)) := by
  constructor
  · rcases htb : try_body env url hdl t ws with ⟨oe, r0, ev⟩
    cases oe with
    | none => simp [scrape_page_outcome, scrape_page, htb]
    | some e => cases e <;> simp [scrape_page_outcome, scrape_page, htb, run_handlers]
  · intro e r0 ev htb
    rw [scrape_page_eq_of_some _ _ _ _ _ _ _ _ htb]
    refine ⟨run_handlers_error_ne_empty _ _, ?_⟩
    intro hsucc
    rw [run_handlers_success] at hsucc
    exact try_body_success_close env url hdl t ws e r0 ev htb hsucc

/-- C6: when the inner scrape succeeds and an output path is given,
`scrape_statistics_canada_daily` returns that scrape result and a filesystem
in which: the path holds exactly the `json.dump(..., indent=2,
ensure_ascii=False)` rendering of the object with exactly the keys `url`,
`title`, `content` whose values are the corresponding fields of the
in-memory result (the `html` field is not among the keys written); the
parent directory and all its ancestors exist; no other file changed (any
previously existing file at the path is overwritten, since the new content
is stored unconditionally); and non-ASCII characters are emitted verbatim by
the serializer. -/
theorem C6_persisted_file (benv : BrowserEnv) (fenv : FsEnv) (fs : FS)
    (p : List String) (hm : fenv.mkdirRes = Except.ok ())
    (hw : fenv.writeRes = Except.ok ())
    (hs : (scrape_page benv STATCAN_URL true 30000 (some "main")).1.success = true) :
    ∃ fs2,
      scrape_statistics_canada_daily benv fenv fs (some p) =
        Except.ok ((scrape_page benv STATCAN_URL true 30000 (some "main")).1, fs2) ∧
      fs2.files p = some (pyJsonDumpObj
        [("url", (scrape_page benv STATCAN_URL true 30000 (some "main")).1.url),
         ("title", (scrape_page benv STATCAN_URL true 30000 (some "main")).1.title),
         ("content", (scrape_page benv STATCAN_URL true 30000 (some "main")).1.content)]) ∧
      ((save_data (scrape_page benv STATCAN_URL true 30000 (some "main")).1).map Prod.fst =
        ["url", "title", "content"]) ∧
      (∀ q, listLeq q p.dropLast = true → fs2.dirs q = true) ∧
      (∀ q, q ≠ p → fs2.files q = fs.files q) ∧
      (∀ q, fs.dirs q = true → fs2.dirs q = true) ∧
      (∀ ch : Char, 127 < ch.toNat → jsonEscapeChar ch = String.singleton ch) := by
  refine ⟨writeFile (mkdirParents fs p.dropLast) p
    (pyJsonDumpObj (save_data (scrape_page benv STATCAN_URL true 30000 (some "main")).1)),
    ?_, ?_, rfl, ?_, ?_, ?_, fun ch hch => jsonEscapeChar_nonascii ch hch⟩
  · simp [scrape_statistics_canada_daily, hs, hm, hw]
  · simp [writeFile, save_data]
  · intro q hq
    simp [writeFile, mkdirParents, hq]
  · intro q hq
    simp [writeFile, mkdirParents, hq]
  · intro q hq
    simp [writeFile, mkdirParents, hq]

/-- C6 witness: on the all-successful run with an empty filesystem and path
`output/statcan_daily.json`, the call returns the result and a filesystem
holding the three-key JSON projection at that path. -/
theorem C6_persisted_file_witness :
    fsEnvOk.mkdirRes = Except.ok () ∧ fsEnvOk.writeRes = Except.ok () ∧
    (scrape_page envAllOk STATCAN_URL true 30000 (some "main")).1.success = true ∧
    ∃ fs2,
      scrape_statistics_canada_daily envAllOk fsEnvOk fs0
          (some ["output", "statcan_daily.json"]) =
        Except.ok ((scrape_page envAllOk STATCAN_URL true 30000 (some "main")).1, fs2) ∧
      fs2.files ["output", "statcan_daily.json"] = some (pyJsonDumpObj
        [("url", (scrape_page envAllOk STATCAN_URL true 30000 (some "main")).1.url),
         ("title", (scrape_page envAllOk STATCAN_URL true 30000 (some "main")).1.title),
         ("content", (scrape_page envAllOk STATCAN_URL true 30000 (some "main")).1.content)]) := by
  refine ⟨rfl, rfl, by decide, ?_⟩
  obtain ⟨fs2, h1, h2, -⟩ :=
    C6_persisted_file envAllOk fsEnvOk fs0 ["output", "statcan_daily.json"] rfl rfl (by decide)
  exact ⟨fs2, h1, h2⟩

/-- C7: when the inner scrape fails, `scrape_statistics_canada_daily`
returns the failing result unchanged together with the filesystem it was
given, untouched: no file is created or written and no directory is made. -/
theorem C7_failure_writes_nothing (benv : BrowserEnv) (fenv : FsEnv) (fs : FS)
    (p : List String)
    (hf : (scrape_page benv STATCAN_URL true 30000 (some "main")).1.success = false) :
    scrape_statistics_canada_daily benv fenv fs (some p) =
      Except.ok ((scrape_page benv STATCAN_URL true 30000 (some "main")).1, fs) := by
  simp [scrape_statistics_canada_daily, hf]

/-- C7 witness: with navigation failing, the call leaves the empty
filesystem exactly as it was. -/
theorem C7_failure_writes_nothing_witness :
    (scrape_page envGotoFail STATCAN_URL true 30000 (some "main")).1.success = false ∧
    scrape_statistics_canada_daily envGotoFail fsEnvOk fs0
        (some ["output", "statcan_daily.json"]) =
      Except.ok ((scrape_page envGotoFail STATCAN_URL true 30000 (some "main")).1, fs0) :=
  ⟨by decide,
   C7_failure_writes_nothing envGotoFail fsEnvOk fs0 ["output", "statcan_daily.json"] (by decide)⟩

/-- C8: the optional file-write step performs no error handling: when the
inner scrape succeeded and either directory creation or the file write
fails, the filesystem exception propagates to the caller of
`scrape_statistics_canada_daily` as a fault (an `Except.error`), not as a
failure field of a returned `ScrapeResult`. -/
theorem C8_fs_failure_propagates (benv : BrowserEnv) (fenv : FsEnv) (fs : FS)
    (p : List String) (e : FsError)
    (hs : (scrape_page benv STATCAN_URL true 30000 (some "main")).1.success = true)
    (hfail : fenv.mkdirRes = Except.error e ∨
      (fenv.mkdirRes = Except.ok () ∧ fenv.writeRes = Except.error e)) :
    scrape_statistics_canada_daily benv fenv fs (some p) = Except.error e := by
  rcases hfail with hm | ⟨hm, hw⟩
  · simp [scrape_statistics_canada_daily, hs, hm]
  · simp [scrape_statistics_canada_daily, hs, hm, hw]

/-- C8 witness: a permission failure in `mkdir` escapes as a fault after a
successful scrape. -/
theorem C8_fs_failure_propagates_witness :
    (scrape_page envAllOk STATCAN_URL true 30000 (some "main")).1.success = true ∧
    (fsEnvMkdirFail.mkdirRes = Except.error (FsError.err "Permission denied") ∨
      (fsEnvMkdirFail.mkdirRes = Except.ok () ∧
       fsEnvMkdirFail.writeRes = Except.error (FsError.err "Permission denied"))) ∧
    scrape_statistics_canada_daily envAllOk fsEnvMkdirFail fs0
        (some ["output", "statcan_daily.json"]) =
      Except.error (FsError.err "Permission denied") :=
  ⟨by decide, Or.inl rfl,
   C8_fs_failure_propagates envAllOk fsEnvMkdirFail fs0 ["output", "statcan_daily.json"]
     (FsError.err "Permission denied") (by decide) (Or.inl rfl)⟩

/-- C9: `scrape_page` treats an empty-string `wait_for_selector` exactly
like an absent (`None`) selector: Python's `if wait_for_selector:` is false
for both, so the selector-wait call is skipped and the whole call — record,
events, and call-boundary outcome — is identical for the two inputs; an
empty selector can never cause a selector-wait timeout. -/
theorem C9_empty_selector_like_none (env : BrowserEnv) (url : String)
    (hdl : Bool) (t : Nat) :
    scrape_page env url hdl t (some "") = scrape_page env url hdl t none ∧
    scrape_page_outcome env url hdl t (some "") =
      scrape_page_outcome env url hdl t none := by
  have h := try_body_empty_selector env url hdl t
  constructor
  · simp only [scrape_page, h]
  · simp only [scrape_page_outcome, h]

/-- C10: the `url` field of the record returned by `scrape_page` equals the
`url` argument as passed in, on the success path and on every failure path:
it is set when the `result` dictionary is created and no later assignment or
handler touches it. -/
theorem C10_url_preserved (env : BrowserEnv) (url : String) (hdl : Bool)
    (t : Nat) (ws : Option String) :
    (scrape_page env url hdl t ws).1.url = url := by
  rcases try_body_spec env url hdl t ws with
    ⟨e, he, htb⟩ | ⟨e, he, htb⟩ | ⟨e, he, htb⟩ | ⟨e, he, htb⟩ | ⟨e, he, htb⟩ |
    ⟨e, he, htb⟩ | ⟨e, tl, h6, he, htb⟩ | ⟨e, tl, c, h6, h7, he, htb⟩ |
    ⟨e, tl, c, hh, h6, h7, h8, he, htb⟩ | ⟨tl, c, hh, h6, h7, h8, h9, htb⟩
  · rw [scrape_page_eq_of_some _ _ _ _ _ _ _ _ htb, run_handlers_url]
  · rw [scrape_page_eq_of_some _ _ _ _ _ _ _ _ htb, run_handlers_url]
  · rw [scrape_page_eq_of_some _ _ _ _ _ _ _ _ htb, run_handlers_url]
  · rw [scrape_page_eq_of_some _ _ _ _ _ _ _ _ htb, run_handlers_url]
  · rw [scrape_page_eq_of_some _ _ _ _ _ _ _ _ htb, run_handlers_url]
  · rw [scrape_page_eq_of_some _ _ _ _ _ _ _ _ htb, run_handlers_url]
  · rw [scrape_page_eq_of_some _ _ _ _ _ _ _ _ htb, run_handlers_url]
  · rw [scrape_page_eq_of_some _ _ _ _ _ _ _ _ htb, run_handlers_url]
  · rw [scrape_page_eq_of_some _ _ _ _ _ _ _ _ htb, run_handlers_url]
  · rw [scrape_page_eq_of_none _ _ _ _ _ _ _ htb]
